import Mathlib

/-!
Shallow embedding of the gokrb5 client reply-processing engine:
the KDC transport (SendToKDC, sendUDP, sendTCP, checkForKRBError) and the
KDC-REP message handling (ASRep and TGSRep decryption and validation).
External collaborators (the ASN.1 codec, the crypto library, the keytab
reader and the network) appear as explicit oracle parameters collected in
the Collab structure and in network outcome records; machine time appears
as an explicit now parameter in seconds.  Error strings keep the source
format strings with the interpolated data dropped.  Go runtime panics
(out-of-range index or slice) are modelled by dedicated constructors.
-/

namespace Krb

/-- Kerberos principal name.  The nameString field is an Option so that a
nil Go slice (none) is distinguished from an empty one (some []). -/
structure PrincipalName where
  nameType : Int
  nameString : Option (List String)
  deriving DecidableEq

/-- EncryptedData as carried in the KDC-REP envelope. -/
structure EncryptedData where
  etype : Int
  kvno : Int
  cipher : List Nat
  deriving DecidableEq

/-- An encryption key: etype and key bytes. -/
structure EncryptionKey where
  keyType : Int
  keyValue : List Nat
  deriving DecidableEq

/-- A single pre-authentication data element. -/
structure PAData where
  padataType : Int
  padataValue : List Nat
  deriving DecidableEq

/-- A Kerberos host address. -/
structure HostAddress where
  addrType : Int
  address : List Nat
  deriving DecidableEq

/-- Decrypted inner part of a KDC-REP.  Times are seconds; flags is the
decoded bit string. -/
structure EncKDCRepPart where
  key : EncryptionKey
  nonce : Int
  flags : List Bool
  authTime : Int
  startTime : Int
  endTime : Int
  srealm : String
  sname : PrincipalName
  caddr : List HostAddress
  encPAData : List PAData
  deriving DecidableEq

/-- The portion of a ticket consulted by reply validation. -/
structure Ticket where
  realm : String
  sname : PrincipalName
  deriving DecidableEq

/-- KRB_AS_REP message fields (the Go KDCRepFields embedded in ASRep). -/
structure ASRep where
  pvno : Int
  msgType : Int
  paData : List PAData
  crealm : String
  cname : PrincipalName
  ticket : Ticket
  encPart : EncryptedData
  decryptedEncPart : EncKDCRepPart
  deriving DecidableEq

/-- KRB_TGS_REP message fields (the Go KDCRepFields embedded in TGSRep). -/
structure TGSRep where
  pvno : Int
  msgType : Int
  paData : List PAData
  crealm : String
  cname : PrincipalName
  ticket : Ticket
  encPart : EncryptedData
  decryptedEncPart : EncKDCRepPart
  deriving DecidableEq

/-- KDC-REQ body fields consulted by reply validation. -/
structure KDCReqBody where
  realm : String
  cname : PrincipalName
  sname : PrincipalName
  nonce : Int
  addresses : List HostAddress
  deriving DecidableEq

/-- KRB_AS_REQ fields consulted by reply validation. -/
structure ASReq where
  paData : List PAData
  reqBody : KDCReqBody
  deriving DecidableEq

/-- KRB_TGS_REQ fields consulted by reply validation. -/
structure TGSReq where
  paData : List PAData
  reqBody : KDCReqBody
  deriving DecidableEq

/-- A decoded KRB-ERROR; only the error code is consulted by this core. -/
structure KRBError where
  errorCode : Int
  deriving DecidableEq

/-- The effective libdefaults configuration record. -/
structure LibDefaults where
  defaultRealm : String
  udpPreferenceLimit : Int
  clockskew : Int
  deriving DecidableEq

/-- One realm section: realm name and its KDC host list. -/
structure RealmConfig where
  realm : String
  kdc : List String
  deriving DecidableEq

/-- The client configuration consumed by SendToKDC. -/
structure Config where
  libDefaults : LibDefaults
  realms : List RealmConfig
  deriving DecidableEq

/-- Client credentials: which secrets are held, and the password text. -/
structure Credentials where
  hasKeytab : Bool
  hasPassword : Bool
  password : String
  deriving DecidableEq

/-- Errors surfaced by the transport: either a typed KRB-ERROR or a plain
message (the fmt.Errorf strings of the source, minus interpolated data). -/
inductive KDCError where
  | krb (e : KRBError)
  | msg (s : String)
  deriving DecidableEq

/-- Protocol constants used by the engine (error code 52 per RFC 4120;
the key-usage and pa-type numbers follow the spec, section 6). -/
def KRB_ERR_RESPONSE_TOO_BIG : Int := 52

/-- Key usage for the AS-REP encrypted part (spec, section 6). -/
def AS_REP_ENCPART : Int := 8

/-- Key usage for the TGS-REP encrypted part under the session key. -/
def TGS_REP_ENCPART_SESSION_KEY : Int := 8

/-- Key usage for the RFC 6806 checksum over the AS-REQ bytes. -/
def KEY_USAGE_AS_REQ : Int := 56

/-- PA type advertising the encrypted PA-REP mechanism (RFC 6806). -/
def PA_REQ_ENC_PA_REP : Int := 149

/-- PA type of the FAST armor element. -/
def PA_FX_FAST : Int := 136

/-- Bit index of the enc-pa-rep flag in the decrypted flags. -/
def EncPARep : Nat := 15

/-- Zero value of an EncryptionKey (the Go var key declaration). -/
def zeroKey : EncryptionKey := { keyType := 0, keyValue := [] }

/-- Membership test of a pa-type in a PAData sequence (types.Contains). -/
def paDataContains (l : List PAData) (t : Int) : Bool :=
  l.any (fun p => p.padataType == t)

/-- Test of one flag bit in the decoded flag bit string (types.IsFlagSet). -/
def isFlagSet (flags : List Bool) (i : Nat) : Bool :=
  flags.getD i false

/-- External collaborators of the engine: the ASN.1 codec, the keytab
reader and the crypto library, exactly as consumed by the source. -/
structure Collab where
  unmarshalKRBError : List Nat → Option KRBError
  keytabKey : Option (List String) → String → Int → Int → Except String EncryptionKey
  passwordKey : String → PrincipalName → String → Int → List PAData → Except String (EncryptionKey × List Nat)
  decryptEncPart : EncryptedData → EncryptionKey → Int → Except String (List Nat)
  unmarshalWithTag : Int → List Nat → Except String EncKDCRepPart
  hostAddressesEqual : List HostAddress → List HostAddress → Bool
  unmarshalPAReqEncPARep : List Nat → Except String (Int × List Nat)
  getChksumEtype : Int → Except String Int
  marshalASReq : ASReq → List Nat
  verifyChecksum : List Nat → List Nat → List Nat → Int → Int → Bool

/-- Outcome of the network steps of one sendUDP call: each field is the
error (if any) of the corresponding socket operation, and readBytes is
the prefix of the 4096-byte buffer actually read. -/
structure UDPNet where
  resolveErr : Option String
  dialErr : Option String
  writeErr : Option String
  readBytes : List Nat
  readErr : Option String

/-- Outcome of the network steps of one sendTCP call; readBytes is the
raw bytes read, still carrying the 4-octet length prefix. -/
structure TCPNet where
  resolveErr : Option String
  dialErr : Option String
  writeErr : Option String
  readBytes : List Nat
  readErr : Option String

/-- Network environment of one SendToKDC call: the UDP exchange outcome
and the outcome of the i-th TCP exchange. -/
structure KDCNetEnv where
  udp : UDPNet
  tcp : Nat → TCPNet

/-- checkForKRBError: attempt to decode the bytes as a KRB-ERROR; on
success the typed error accompanies the unchanged bytes. -/
def checkForKRBError (co : Collab) (b : List Nat) : List Nat × Option KDCError :=
  match co.unmarshalKRBError b with
  | some e => (b, some (KDCError.krb e))
  | none => (b, none)

/-- sendUDP: resolve, dial, write, read; on a read error the bytes read
so far accompany the error; a clean read is passed to checkForKRBError. -/
def sendUDP (co : Collab) (net : UDPNet) : List Nat × Option KDCError :=
  match net.resolveErr with
  | some _ => ([], some (KDCError.msg "Error resolving KDC address"))
  | none =>
    match net.dialErr with
    | some _ => ([], some (KDCError.msg "Error establishing connection to KDC"))
    | none =>
      match net.writeErr with
      | some _ => ([], some (KDCError.msg "Error sending to KDC"))
      | none =>
        match net.readErr with
        | some _ => (net.readBytes, some (KDCError.msg "Sending over UDP failed"))
        | none => checkForKRBError co net.readBytes

/-- Result of sendTCP: panicT models the Go runtime panic raised by the
out-of-range slice r[4:] on a successful read of fewer than 4 bytes. -/
inductive TCPResult where
  | panicT
  | res (bytes : List Nat) (err : Option KDCError)
  deriving DecidableEq

/-- sendTCP: resolve, dial, length-prefix and write, read; the 4-octet
length prefix of the response is discarded with r[4:] before the payload
is passed to checkForKRBError. -/
def sendTCP (co : Collab) (net : TCPNet) : TCPResult :=
  match net.resolveErr with
  | some _ => TCPResult.res [] (some (KDCError.msg "Error resolving KDC address"))
  | none =>
    match net.dialErr with
    | some _ => TCPResult.res [] (some (KDCError.msg "Error establishing connection to KDC"))
    | none =>
      match net.writeErr with
      | some _ => TCPResult.res [] (some (KDCError.msg "Error sending to KDC"))
      | none =>
        match net.readErr with
        | some _ => TCPResult.res [] (some (KDCError.msg "Sending over TCP failed"))
        | none =>
          if 4 ≤ net.readBytes.length then
            let p := checkForKRBError co (net.readBytes.drop 4)
            TCPResult.res p.1 p.2
          else TCPResult.panicT

/-- Which transport an exchange used, in call order. -/
inductive Transport where
  | udpT
  | tcpT
  deriving DecidableEq

/-- Result of SendToKDC, instrumented with the list of transport
exchanges performed; panicK propagates a sendTCP panic. -/
inductive KDCOutcome where
  | panicK (trace : List Transport)
  | done (bytes : List Nat) (err : Option KDCError) (trace : List Transport)
  deriving DecidableEq

/-- Shared tail of SendToKDC: the empty-response check followed by
checkForKRBError on the bytes held by the surviving rb variable. -/
def sendToKDCFinish (co : Collab) (rb : List Nat) (tr : List Transport) : KDCOutcome :=
  if rb.length < 1 then
    KDCOutcome.done rb (some (KDCError.msg "No response data from KDC")) tr
  else
    let p := checkForKRBError co rb
    KDCOutcome.done p.1 p.2 tr

/-- Tail of the UDP-preference branch after the initial exchange: the
KRB-ERROR parse of the UDP bytes, the code-52 TCP retry whose successful
result is assigned to a shadowed variable and dropped (the Go := inside
the inner block), and the shared finish on the UDP bytes. -/
def sendToKDCUdpTail (co : Collab) (env : KDCNetEnv) (rbU : List Nat) (i : Nat)
    (tr : List Transport) : KDCOutcome :=
  match co.unmarshalKRBError rbU with
  | some e =>
    if e.errorCode = KRB_ERR_RESPONSE_TOO_BIG then
      match sendTCP co (env.tcp i) with
      | TCPResult.panicT => KDCOutcome.panicK (tr ++ [Transport.tcpT])
      | TCPResult.res rbT (some _) =>
        KDCOutcome.done rbT
          (some (KDCError.msg "Failed to communicate with KDC. Response too big for UDP and errored when using TCP"))
          (tr ++ [Transport.tcpT])
      | TCPResult.res _ none => sendToKDCFinish co rbU (tr ++ [Transport.tcpT])
    else sendToKDCFinish co rbU tr
  | none => sendToKDCFinish co rbU tr

/-- SendToKDC: KDC selection for the default realm, then the transport
policy of the source: TCP only when the UDP preference limit is 1, UDP
first (with TCP fallback on error and on a code-52 KRB-ERROR) for short
requests, TCP first with UDP fallback otherwise.  The shadowed rb
variables of the Go source are modelled exactly: every fallback result
bound inside an inner block is dropped when that block exits. -/
def sendToKDC (co : Collab) (cfg : Config) (env : KDCNetEnv) (b : List Nat) : KDCOutcome :=
  let kdcs :=
    match cfg.realms.find? (fun r => r.realm == cfg.libDefaults.defaultRealm) with
    | some r => r.kdc
    | none => []
  if kdcs.length < 1 then
    KDCOutcome.done [] (some (KDCError.msg "No KDCs defined in configuration for realm")) []
  else if cfg.libDefaults.udpPreferenceLimit = 1 then
    match sendTCP co (env.tcp 0) with
    | TCPResult.panicT => KDCOutcome.panicK [Transport.tcpT]
    | TCPResult.res rb (some _) =>
      KDCOutcome.done rb (some (KDCError.msg "Failed to communicate with KDC via TDP")) [Transport.tcpT]
    | TCPResult.res rb none => sendToKDCFinish co rb [Transport.tcpT]
  else if (b.length : Int) ≤ cfg.libDefaults.udpPreferenceLimit then
    match sendUDP co env.udp with
    | (rbU, some _) =>
      match sendTCP co (env.tcp 0) with
      | TCPResult.panicT => KDCOutcome.panicK [Transport.udpT, Transport.tcpT]
      | TCPResult.res rbT (some _) =>
        KDCOutcome.done rbT
          (some (KDCError.msg "Failed to communicate with KDC via UDP and then via TDP"))
          [Transport.udpT, Transport.tcpT]
      | TCPResult.res _ none =>
        sendToKDCUdpTail co env rbU 1 [Transport.udpT, Transport.tcpT]
    | (rbU, none) => sendToKDCUdpTail co env rbU 0 [Transport.udpT]
  else
    match sendTCP co (env.tcp 0) with
    | TCPResult.panicT => KDCOutcome.panicK [Transport.tcpT]
    | TCPResult.res rbT (some _) =>
      match sendUDP co env.udp with
      | (rbU, some _) =>
        KDCOutcome.done rbU
          (some (KDCError.msg "Failed to communicate with KDC via TCP and then via UDP"))
          [Transport.tcpT, Transport.udpT]
      | (_, none) => sendToKDCFinish co rbT [Transport.tcpT, Transport.udpT]
    | TCPResult.res rbT none => sendToKDCFinish co rbT [Transport.tcpT]

/-- EncKDCRepPart.Unmarshal: DER decode under application-explicit tag 25
first; only when that fails, a second attempt under tag 26 (the RFC 4120
compatibility note); the error of the second attempt is the result. -/
def EncKDCRepPart.unmarshal (co : Collab) (b : List Nat) : Except String EncKDCRepPart :=
  match co.unmarshalWithTag 25 b with
  | Except.ok e => Except.ok e
  | Except.error _ => co.unmarshalWithTag 26 b

/-- The application tags attempted, in order, by EncKDCRepPart.unmarshal
on the given plaintext. -/
def EncKDCRepPart.unmarshalTags (co : Collab) (b : List Nat) : List Int :=
  match co.unmarshalWithTag 25 b with
  | Except.ok _ => [25]
  | Except.error _ => [25, 26]

/-- Key-selection phase of ASRep.DecryptEncPart (the two independent ifs
of the source followed by the no-secret check): a held keytab is looked
up and a miss fails; a held password then overwrites the key variable;
holding neither fails. -/
def ASRep.acquireKey (co : Collab) (c : Credentials) (k : ASRep) : Except String EncryptionKey :=
  let step1 : Except String EncryptionKey :=
    if c.hasKeytab then
      match co.keytabKey k.cname.nameString k.crealm k.encPart.kvno k.encPart.etype with
      | Except.error e => Except.error ("Could not get key from keytab: " ++ e)
      | Except.ok kk => Except.ok kk
    else Except.ok zeroKey
  match step1 with
  | Except.error e => Except.error e
  | Except.ok k1 =>
    if c.hasPassword then
      match co.passwordKey c.password k.cname k.crealm k.encPart.etype k.paData with
      | Except.error e => Except.error ("Could not derive key from password: " ++ e)
      | Except.ok kp => Except.ok kp.1
    else
      if !c.hasKeytab && !c.hasPassword then
        Except.error "No secret available in credentials to preform decryption"
      else Except.ok k1

/-- Decryption and inner decode phase of ASRep.DecryptEncPart, given the
selected key. -/
def ASRep.decryptWithKey (co : Collab) (k : ASRep) (key : EncryptionKey) :
    Except String (EncryptionKey × EncKDCRepPart) :=
  match co.decryptEncPart k.encPart key AS_REP_ENCPART with
  | Except.error _ => Except.error "Error decrypting KDC_REP EncPart"
  | Except.ok b =>
    match EncKDCRepPart.unmarshal co b with
    | Except.error _ => Except.error "Error unmarshalling encrypted part"
    | Except.ok denc => Except.ok (key, denc)

/-- ASRep.DecryptEncPart: key selection then decryption; returns the key
together with the decrypted part that the source stores in the struct. -/
def ASRep.decryptEncPart (co : Collab) (c : Credentials) (k : ASRep) :
    Except String (EncryptionKey × EncKDCRepPart) :=
  match ASRep.acquireKey co c k with
  | Except.error e => Except.error e
  | Except.ok key => ASRep.decryptWithKey co k key

/-- TGSRep.DecryptEncPart: decryption with the session key passed by the
caller, then the inner decode. -/
def TGSRep.decryptEncPart (co : Collab) (key : EncryptionKey) (k : TGSRep) :
    Except String EncKDCRepPart :=
  match co.decryptEncPart k.encPart key TGS_REP_ENCPART_SESSION_KEY with
  | Except.error _ => Except.error "Error decrypting KDC_REP EncPart"
  | Except.ok b =>
    match EncKDCRepPart.unmarshal co b with
    | Except.error _ => Except.error "Error unmarshalling encrypted part"
    | Except.ok denc => Except.ok denc

/-- The Go loop for i := range reply with a comparison of reply[i] and
req[i]: some false on the first mismatch, some true when the loop ends,
none when the index runs past the end of req (a runtime panic). -/
def nameLoop : List String → List String → Option Bool
  | [], _ => some true
  | _ :: _, [] => none
  | a :: as, b :: bs => if a = b then nameLoop as bs else some false

/-- The Go loop for i := range cname with a comparison of replySName[i]
and reqSName[i]: the iteration count comes from a third sequence, so
either operand can be indexed out of range (none models the panic). -/
def snameLoop : Nat → List String → List String → Option Bool
  | 0, _, _ => some true
  | _ + 1, [], _ => none
  | _ + 1, _ :: _, [] => none
  | n + 1, a :: as, b :: bs => if a = b then snameLoop n as bs else some false

/-- Result of IsValid: the (bool, error) pair of the source, with panicV
for a Go runtime panic raised by an out-of-range index. -/
inductive ValidRes where
  | panicV
  | res (ok : Bool) (msg : Option String)
  deriving DecidableEq

/-- The replay failure message of the nonce check. -/
def replayNote : String := "Possible replay attack, nonce in response does not match that in request"

/-- The clock-skew failure message. -/
def skewNote : String := "Clock skew with KDC too large"

/-- The RFC 6806 loop over the encrypted PA-Data: for each element of
type PA_REQ_ENC_PA_REP, decode it, resolve the checksum etype, reserialize
the request and verify the checksum; the first failure message wins. -/
def fastLoop (co : Collab) (req : ASReq) (key : EncryptionKey) : List PAData → Option String
  | [] => none
  | pa :: rest =>
    if pa.padataType = PA_REQ_ENC_PA_REP then
      match co.unmarshalPAReqEncPARep pa.padataValue with
      | Except.error _ => some "KDC FAST negotiation response error, could not unmarshal PA_REQ_ENC_PA_REP"
      | Except.ok pf =>
        match co.getChksumEtype pf.1 with
        | Except.error _ => some "KDC FAST negotiation response error"
        | Except.ok etype =>
          if co.verifyChecksum key.keyValue pf.2 (co.marshalASReq req) KEY_USAGE_AS_REQ etype then
            fastLoop co req key rest
          else some "KDC FAST negotiation response checksum invalid"
    else fastLoop co req key rest

/-- The checks of ASRep.IsValid that follow the nonce comparison: SName
(the loop bound comes from the CName sequence, as in the source), SRealm,
addresses, clock skew against now, and the RFC 6806 FAST negotiation. -/
def asValidAfterNonce (co : Collab) (cfg : Config) (asReq : ASReq) (k : ASRep)
    (key : EncryptionKey) (denc : EncKDCRepPart) (now : Int) : ValidRes :=
  if denc.sname.nameType ≠ asReq.reqBody.sname.nameType ∨ denc.sname.nameString = none then
    ValidRes.res false (some "SName in response does not match what was requested")
  else
    match snameLoop (k.cname.nameString.getD []).length (denc.sname.nameString.getD [])
        (asReq.reqBody.sname.nameString.getD []) with
    | none => ValidRes.panicV
    | some false => ValidRes.res false (some "SName in response does not match what was requested")
    | some true =>
      if denc.srealm ≠ asReq.reqBody.realm then
        ValidRes.res false (some "SRealm in response does not match what was requested")
      else if 0 < asReq.reqBody.addresses.length ∧
          ¬ co.hostAddressesEqual denc.caddr asReq.reqBody.addresses = true then
        ValidRes.res false (some "Addresses listed in the AS_REP does not match those listed in the AS_REQ")
      else if now - denc.authTime > cfg.libDefaults.clockskew ∨
          denc.authTime - now > cfg.libDefaults.clockskew then
        ValidRes.res false (some skewNote)
      else if paDataContains asReq.paData PA_REQ_ENC_PA_REP = true ∧
          isFlagSet denc.flags EncPARep = true then
        if denc.encPAData.length < 2 ∨ ¬ paDataContains denc.encPAData PA_FX_FAST = true then
          ValidRes.res false (some "KDC did not respond appropriately to FAST negotiation")
        else
          match fastLoop co asReq key denc.encPAData with
          | some m => ValidRes.res false (some m)
          | none => ValidRes.res true none
      else ValidRes.res true none

/-- ASRep.IsValid: CName (type, nil and element-wise checks), CRealm,
decryption of the encrypted part, the nonce replay check, then the
remaining checks. -/
def ASRep.isValid (co : Collab) (cfg : Config) (creds : Credentials) (asReq : ASReq)
    (k : ASRep) (now : Int) : ValidRes :=
  if k.cname.nameType ≠ asReq.reqBody.cname.nameType ∨ k.cname.nameString = none then
    ValidRes.res false (some "CName in response does not match what was requested")
  else
    match nameLoop (k.cname.nameString.getD []) (asReq.reqBody.cname.nameString.getD []) with
    | none => ValidRes.panicV
    | some false => ValidRes.res false (some "CName in response does not match what was requested")
    | some true =>
      if k.crealm ≠ asReq.reqBody.realm then
        ValidRes.res false (some "CRealm in response does not match what was requested")
      else
        match ASRep.decryptEncPart co creds k with
        | Except.error _ => ValidRes.res false (some "Error decrypting EncPart of AS_REP")
        | Except.ok kd =>
          if kd.2.nonce ≠ asReq.reqBody.nonce then
            ValidRes.res false (some replayNote)
          else asValidAfterNonce co cfg asReq k kd.1 kd.2 now

/-- The checks of TGSRep.IsValid that follow the nonce comparison: the
ticket SName, the encrypted-part SName (whose loop bound comes from the
CName sequence, as in the source), SRealm, addresses, and the clock-skew
check on the start time with the auth time as fallback. -/
def tgsValidAfterNonce (co : Collab) (cfg : Config) (tgsReq : TGSReq) (k : TGSRep)
    (now : Int) : ValidRes :=
  if k.ticket.sname.nameType ≠ tgsReq.reqBody.sname.nameType ∨ k.ticket.sname.nameString = none then
    ValidRes.res false (some "SName in response ticket does not match what was requested")
  else
    match nameLoop (k.ticket.sname.nameString.getD []) (tgsReq.reqBody.sname.nameString.getD []) with
    | none => ValidRes.panicV
    | some false => ValidRes.res false (some "SName in response ticket does not match what was requested")
    | some true =>
      if k.decryptedEncPart.sname.nameType ≠ tgsReq.reqBody.sname.nameType ∨
          k.decryptedEncPart.sname.nameString = none then
        ValidRes.res false (some "SName in response does not match what was requested")
      else
        match snameLoop (k.cname.nameString.getD []).length
            (k.decryptedEncPart.sname.nameString.getD [])
            (tgsReq.reqBody.sname.nameString.getD []) with
        | none => ValidRes.panicV
        | some false => ValidRes.res false (some "SName in response does not match what was requested")
        | some true =>
          if k.decryptedEncPart.srealm ≠ tgsReq.reqBody.realm then
            ValidRes.res false (some "SRealm in response does not match what was requested")
          else if 0 < tgsReq.reqBody.addresses.length ∧
              ¬ co.hostAddressesEqual k.decryptedEncPart.caddr tgsReq.reqBody.addresses = true then
            ValidRes.res false (some "Addresses listed in the TGS_REP does not match those listed in the TGS_REQ")
          else if now - k.decryptedEncPart.startTime > cfg.libDefaults.clockskew ∨
              k.decryptedEncPart.startTime - now > cfg.libDefaults.clockskew then
            if now - k.decryptedEncPart.authTime > cfg.libDefaults.clockskew ∨
                k.decryptedEncPart.authTime - now > cfg.libDefaults.clockskew then
              ValidRes.res false (some skewNote)
            else ValidRes.res true none
          else ValidRes.res true none

/-- TGSRep.IsValid: CName checks, CRealm, the nonce replay check on the
already-decrypted part, then the remaining checks. -/
def TGSRep.isValid (co : Collab) (cfg : Config) (tgsReq : TGSReq) (k : TGSRep)
    (now : Int) : ValidRes :=
  if k.cname.nameType ≠ tgsReq.reqBody.cname.nameType ∨ k.cname.nameString = none then
    ValidRes.res false (some "CName in response does not match what was requested")
  else
    match nameLoop (k.cname.nameString.getD []) (tgsReq.reqBody.cname.nameString.getD []) with
    | none => ValidRes.panicV
    | some false => ValidRes.res false (some "CName in response does not match what was requested")
    | some true =>
      if k.crealm ≠ tgsReq.reqBody.realm then
        ValidRes.res false (some "CRealm in response does not match what was requested")
      else if k.decryptedEncPart.nonce ≠ tgsReq.reqBody.nonce then
        ValidRes.res false (some replayNote)
      else tgsValidAfterNonce co cfg tgsReq k now

/-- The full input record of one ASRep.IsValid run: the inputs the claim
names, plus the clock reading and an ambient value standing for the rest
of the process state. -/
structure ValidEnv where
  co : Collab
  cfg : Config
  creds : Credentials
  req : ASReq
  rep : ASRep
  now : Int
  ambient : Nat

/-- One ASRep.IsValid run in a given environment. -/
def validateEnv (e : ValidEnv) : ValidRes :=
  ASRep.isValid e.co e.cfg e.creds e.req e.rep e.now

/-! Concrete fixtures: oracle instances and message values used to
evaluate the engine on specific inputs. -/

/-- A client principal of one component. -/
def pnU : PrincipalName := { nameType := 1, nameString := some ["u"] }

/-- A service principal of one component. -/
def pnS : PrincipalName := { nameType := 2, nameString := some ["s"] }

/-- Collaborator instance in which every codec and crypto call has a
fixed harmless outcome. -/
def baseCollab : Collab where
  unmarshalKRBError := fun _ => none
  keytabKey := fun _ _ _ _ => Except.error "no keytab entry"
  passwordKey := fun _ _ _ _ _ => Except.ok ({ keyType := 1, keyValue := [1] }, [])
  decryptEncPart := fun _ _ _ => Except.ok [0]
  unmarshalWithTag := fun _ _ => Except.error "bad tag"
  hostAddressesEqual := fun x y => decide (x = y)
  unmarshalPAReqEncPARep := fun _ => Except.error "e"
  getChksumEtype := fun _ => Except.error "e"
  marshalASReq := fun _ => []
  verifyChecksum := fun _ _ _ _ _ => false

/-- Collaborator instance whose decryption pipeline yields the given
decrypted part under application tag 25. -/
def mkCollab (d : EncKDCRepPart) : Collab :=
  { baseCollab with
    unmarshalWithTag := fun t b =>
      if t = 25 ∧ b = [0] then Except.ok d else Except.error "bad tag" }

/-- Credentials holding only a password. -/
def credsPw : Credentials := { hasKeytab := false, hasPassword := true, password := "pw" }

/-- Credentials holding both a keytab and a password. -/
def credsBoth : Credentials := { hasKeytab := true, hasPassword := true, password := "pw" }

/-- Configuration with realm R, one KDC, UDP preference limit 1500 and
the given clock skew in seconds. -/
def cfgS (s : Int) : Config where
  libDefaults := { defaultRealm := "R", udpPreferenceLimit := 1500, clockskew := s }
  realms := [{ realm := "R", kdc := ["kdc:88"] }]

/-- A decrypted part matching reqA, with the given auth time. -/
def dencA (a : Int) : EncKDCRepPart where
  key := { keyType := 1, keyValue := [1] }
  nonce := 7
  flags := []
  authTime := a
  startTime := 0
  endTime := 0
  srealm := "R"
  sname := pnS
  caddr := []
  encPAData := []

/-- Collaborators whose decryption yields dencA a. -/
def coA (a : Int) : Collab := mkCollab (dencA a)

/-- An AS-REP envelope for client u at realm R. -/
def repA : ASRep where
  pvno := 5
  msgType := 11
  paData := []
  crealm := "R"
  cname := pnU
  ticket := { realm := "R", sname := pnS }
  encPart := { etype := 18, kvno := 1, cipher := [3] }
  decryptedEncPart := dencA 0

/-- The AS-REQ that elicited repA: same client, service s, nonce 7. -/
def reqA : ASReq where
  paData := []
  reqBody := { realm := "R", cname := pnU, sname := pnS, nonce := 7, addresses := [] }

/-- reqA with nonce 8 instead of 7. -/
def reqA8 : ASReq where
  paData := []
  reqBody := { realm := "R", cname := pnU, sname := pnS, nonce := 8, addresses := [] }

/-- A TGS-REP whose decrypted part has the given start and auth times. -/
def repT (st au : Int) : TGSRep where
  pvno := 5
  msgType := 13
  paData := []
  crealm := "R"
  cname := pnU
  ticket := { realm := "R", sname := pnS }
  encPart := { etype := 18, kvno := 1, cipher := [3] }
  decryptedEncPart :=
    { key := { keyType := 1, keyValue := [1] }
      nonce := 7
      flags := []
      authTime := au
      startTime := st
      endTime := 0
      srealm := "R"
      sname := pnS
      caddr := []
      encPAData := [] }

/-- The TGS-REQ that elicited repT. -/
def reqT : TGSReq where
  paData := []
  reqBody := { realm := "R", cname := pnU, sname := pnS, nonce := 7, addresses := [] }

/-- The service name requested in the C1 scenario. -/
def snReq1 : PrincipalName := { nameType := 2, nameString := some ["krbtgt", "REALM.COM"] }

/-- The differing service name returned in the C1 scenario. -/
def snRep1 : PrincipalName := { nameType := 2, nameString := some ["krbtgt", "EVIL.COM"] }

/-- Decrypted part of the C1 scenario: service name differs from the
request at index 1, beyond the length of the one-component client name. -/
def denc1 : EncKDCRepPart := { dencA 0 with sname := snRep1 }

/-- Collaborators whose decryption yields denc1. -/
def co1 : Collab := mkCollab denc1

/-- The AS-REQ of the C1 scenario, asking for service snReq1. -/
def req1 : ASReq where
  paData := []
  reqBody := { realm := "R", cname := pnU, sname := snReq1, nonce := 7, addresses := [] }

/-- The AS-REQ of the C10 scenario: a two-component client name. -/
def req10 : ASReq where
  paData := []
  reqBody :=
    { realm := "R"
      cname := { nameType := 1, nameString := some ["a", "b"] }
      sname := pnS
      nonce := 7
      addresses := [] }

/-- The AS-REP of the C10 scenario: a one-component client name that is
a strict prefix of the requested one. -/
def rep10 : ASRep := { repA with cname := { nameType := 1, nameString := some ["a"] } }

/-- Keytab entry key of the C3 scenario. -/
def ktKey : EncryptionKey := { keyType := 3, keyValue := [3] }

/-- Password-derived key of the C3 scenario. -/
def pwKey : EncryptionKey := { keyType := 4, keyValue := [4] }

/-- Collaborators of the C3 scenario: the keytab lookup and the password
derivation both succeed with distinct keys, and decryption succeeds only
under the password-derived key. -/
def coC3 : Collab :=
  { baseCollab with
    keytabKey := fun _ _ _ _ => Except.ok ktKey
    passwordKey := fun _ _ _ _ _ => Except.ok (pwKey, [])
    decryptEncPart := fun _ key _ =>
      if key = pwKey then Except.ok [0] else Except.error "wrong key"
    unmarshalWithTag := fun t b =>
      if t = 25 ∧ b = [0] then Except.ok (dencA 0) else Except.error "bad tag" }

/-- Bytes that decode as a KRB-ERROR with code 52 under coNet. -/
def krb52Bytes : List Nat := [5, 2]

/-- Bytes that decode as a KRB-ERROR with code 6 under coNet. -/
def krb6Bytes : List Nat := [6]

/-- The TCP payload behind the length prefix in the network fixtures. -/
def tcpPayload : List Nat := [9, 9]

/-- Collaborators whose KRB-ERROR decoder recognises the two error byte
strings of the network fixtures. -/
def coNet : Collab :=
  { baseCollab with
    unmarshalKRBError := fun bs =>
      if bs = krb52Bytes then some { errorCode := 52 }
      else if bs = krb6Bytes then some { errorCode := 6 } else none }

/-- Collaborators whose KRB-ERROR decoder maps krb6Bytes to the given
error code. -/
def coE (c : Int) : Collab :=
  { baseCollab with
    unmarshalKRBError := fun bs =>
      if bs = krb6Bytes then some { errorCode := c } else none }

/-- Network environment: the UDP reply is the code-52 KRB-ERROR and every
TCP exchange succeeds with the length-prefixed tcpPayload. -/
def env52 : KDCNetEnv where
  udp := { resolveErr := none, dialErr := none, writeErr := none, readBytes := krb52Bytes, readErr := none }
  tcp := fun _ =>
    { resolveErr := none, dialErr := none, writeErr := none
      readBytes := [0, 0, 0, 2] ++ tcpPayload, readErr := none }

/-- Network environment: the UDP reply is krb6Bytes and every TCP
exchange succeeds with the length-prefixed tcpPayload. -/
def env6 : KDCNetEnv where
  udp := { resolveErr := none, dialErr := none, writeErr := none, readBytes := krb6Bytes, readErr := none }
  tcp := fun _ =>
    { resolveErr := none, dialErr := none, writeErr := none
      readBytes := [0, 0, 0, 2] ++ tcpPayload, readErr := none }

/-- TCP network outcome in which the read succeeds with only 2 bytes. -/
def net9 : TCPNet where
  resolveErr := none
  dialErr := none
  writeErr := none
  readBytes := [7, 7]
  readErr := none

/-- Validation environment: fixture inputs observed at time 0. -/
def env8a : ValidEnv where
  co := coA 0
  cfg := cfgS 300
  creds := credsPw
  req := reqA
  rep := repA
  now := 0
  ambient := 0

/-- The same inputs observed at time 301. -/
def env8b : ValidEnv := { env8a with now := 301 }

/-- The same inputs at time 0 with a different ambient value. -/
def env8c : ValidEnv := { env8a with ambient := 1 }

/-- An AS-REP whose client name is strictly longer than the requested
one, with a matching first component. -/
def repLong : ASRep := { repA with cname := { nameType := 1, nameString := some ["u", "v"] } }

/-- The TGS-REQ of the C1 scenario, asking for service snReq1. -/
def reqT1 : TGSReq where
  paData := []
  reqBody := { realm := "R", cname := pnU, sname := snReq1, nonce := 7, addresses := [] }

/-- The TGS-REP of the C1 scenario: the ticket carries the requested
service name but the decrypted part carries snRep1, differing at index
1, beyond the length of the one-component client name. -/
def repT1 : TGSRep :=
  { repT 0 0 with ticket := { realm := "R", sname := snReq1 }, decryptedEncPart := denc1 }

/-! Helper lemmas. -/

/-- The element-wise loop passes on two equal sequences. -/
lemma nameLoop_self (l : List String) : nameLoop l l = some true := by
  induction l with
  | nil => rfl
  | cons a as ih => simp [nameLoop, ih]

/-- The element-wise loop passes whenever the reply sequence is an
initial segment of the request sequence: the surplus of the request is
never inspected. -/
lemma nameLoop_initSeg (xs t : List String) : nameLoop xs (xs ++ t) = some true := by
  induction xs with
  | nil => cases t <;> rfl
  | cons a as ih => simp [nameLoop, ih]

/-- The element-wise loop panics whenever the request sequence is a
strict initial segment of the reply sequence: the loop indexes the
request out of range after the shared segment matches. -/
lemma nameLoop_panic (ys t : List String) (ht : t ≠ []) : nameLoop (ys ++ t) ys = none := by
  induction ys with
  | nil => cases t with
    | nil => exact absurd rfl ht
    | cons a as => rfl
  | cons a as ih => simp [nameLoop, ih]

/-- Every failure message produced by the FAST loop is one of its three
literal messages. -/
lemma fastLoop_msg (co : Collab) (req : ASReq) (key : EncryptionKey) :
    ∀ l m, fastLoop co req key l = some m →
      m = "KDC FAST negotiation response error, could not unmarshal PA_REQ_ENC_PA_REP" ∨
      m = "KDC FAST negotiation response error" ∨
      m = "KDC FAST negotiation response checksum invalid" := by
  intro l
  induction l with
  | nil => intro m h; simp [fastLoop] at h
  | cons pa rest ih =>
    intro m h
    simp only [fastLoop] at h
    split at h
    · split at h
      · left; exact (Option.some_inj.mp h).symm
      · split at h
        · right; left; exact (Option.some_inj.mp h).symm
        · split at h
          · exact ih m h
          · right; right; exact (Option.some_inj.mp h).symm
    · exact ih m h

/-- The checks after the nonce comparison never yield the replay
failure: its message arises only at the nonce check. -/
lemma asAfterNonce_ne_replay (co : Collab) (cfg : Config) (asReq : ASReq) (k : ASRep)
    (key : EncryptionKey) (denc : EncKDCRepPart) (now : Int) :
    asValidAfterNonce co cfg asReq k key denc now ≠ ValidRes.res false (some replayNote) := by
  unfold asValidAfterNonce
  repeat' split
  all_goals try decide
  rename_i m heq
  intro hcon
  have hinj : m = replayNote := by
    injection hcon with h1 h2
    exact Option.some_inj.mp h2
  have hm := fastLoop_msg co asReq key denc.encPAData m heq
  rcases hm with h | h | h <;> (subst h; exact absurd hinj (by decide))

/-- The TGS checks after the nonce comparison never yield the replay
failure. -/
lemma tgsAfterNonce_ne_replay (co : Collab) (cfg : Config) (tgsReq : TGSReq) (k : TGSRep)
    (now : Int) :
    tgsValidAfterNonce co cfg tgsReq k now ≠ ValidRes.res false (some replayNote) := by
  unfold tgsValidAfterNonce
  repeat' split
  all_goals decide

/-- Evaluation of ASRep.IsValid on the fixture family: every check other
than clock skew passes, so the verdict is exactly the skew comparison. -/
lemma asValid_fixture (a s t : Int) :
    ASRep.isValid (coA a) (cfgS s) credsPw reqA repA t =
      if t - a > s ∨ a - t > s then ValidRes.res false (some skewNote)
      else ValidRes.res true none := by
  by_cases h : t - a > s ∨ a - t > s
  · rw [if_pos h]
    simp [ASRep.isValid, asValidAfterNonce, ASRep.decryptEncPart, ASRep.acquireKey,
      ASRep.decryptWithKey, EncKDCRepPart.unmarshal, coA, mkCollab, baseCollab, repA, reqA,
      credsPw, cfgS, dencA, pnU, pnS, nameLoop, snameLoop, paDataContains, zeroKey, h]
  · rw [if_neg h]
    simp [ASRep.isValid, asValidAfterNonce, ASRep.decryptEncPart, ASRep.acquireKey,
      ASRep.decryptWithKey, EncKDCRepPart.unmarshal, coA, mkCollab, baseCollab, repA, reqA,
      credsPw, cfgS, dencA, pnU, pnS, nameLoop, snameLoop, paDataContains, zeroKey,
      isFlagSet, h]

/-- Evaluation of TGSRep.IsValid on the fixture family: every check
other than clock skew passes, so the verdict is the nested skew
comparison on the start time with the auth time as fallback. -/
lemma tgsValid_fixture (st au s t : Int) :
    TGSRep.isValid (coA 0) (cfgS s) reqT (repT st au) t =
      if t - st > s ∨ st - t > s then
        if t - au > s ∨ au - t > s then ValidRes.res false (some skewNote)
        else ValidRes.res true none
      else ValidRes.res true none := by
  by_cases h1 : t - st > s ∨ st - t > s
  · by_cases h2 : t - au > s ∨ au - t > s
    · rw [if_pos h1, if_pos h2]
      simp [TGSRep.isValid, tgsValidAfterNonce, coA, mkCollab, baseCollab, repT, reqT,
        cfgS, pnU, pnS, nameLoop, snameLoop, h1, h2]
    · rw [if_pos h1, if_neg h2]
      simp [TGSRep.isValid, tgsValidAfterNonce, coA, mkCollab, baseCollab, repT, reqT,
        cfgS, pnU, pnS, nameLoop, snameLoop, h1, h2]
  · rw [if_neg h1]
    simp [TGSRep.isValid, tgsValidAfterNonce, coA, mkCollab, baseCollab, repT, reqT,
      cfgS, pnU, pnS, nameLoop, snameLoop, h1]

/-! Claim theorems. -/

/-- C1: evaluation at the failing input.  The reply client name has one
component, the decrypted service name differs from the requested one at
index 1 with equal name types and non-null sequences, yet both
ASRep.IsValid and TGSRep.IsValid return true: the SName loop iterates
the CName index range of the source, so the differing component is never
compared.  This contradicts the claim that IsValid returns false
whenever the decrypted SName differs element-wise from the requested
one. -/
theorem c1_sname_check :
    snRep1.nameType = snReq1.nameType ∧
    snRep1.nameString ≠ snReq1.nameString ∧
    req1.reqBody.sname = snReq1 ∧
    ASRep.decryptEncPart co1 credsPw repA =
      Except.ok ({ keyType := 1, keyValue := [1] }, denc1) ∧
    denc1.sname = snRep1 ∧
    ASRep.isValid co1 (cfgS 300) credsPw req1 repA 0 = ValidRes.res true none ∧
    reqT1.reqBody.sname = snReq1 ∧
    repT1.decryptedEncPart.sname = snRep1 ∧
    TGSRep.isValid (coA 0) (cfgS 300) reqT1 repT1 0 = ValidRes.res true none := by
  refine ⟨rfl, by decide, rfl, rfl, rfl, by decide, rfl, rfl, by decide⟩

/-- C2: evaluation at the failing input.  The request fits the UDP
preference limit, the UDP reply is a KRB-ERROR with code 52, and every
TCP exchange succeeds with tcpPayload; SendToKDC does contact TCP
(twice), but the TCP results are bound to shadowed variables and
dropped, so the returned bytes are the UDP KRB-ERROR bytes, not the TCP
payload the claim requires. -/
theorem c2_response_too_big_retry :
    sendToKDC coNet (cfgS 300) env52 [1] =
      KDCOutcome.done krb52Bytes (some (KDCError.krb { errorCode := 52 }))
        [Transport.udpT, Transport.tcpT, Transport.tcpT] ∧
    sendTCP coNet (env52.tcp 0) = TCPResult.res tcpPayload none ∧
    krb52Bytes ≠ tcpPayload := by
  refine ⟨rfl, rfl, by decide⟩

/-- C3 counterexample: credentials holding both a keytab and a password.
The keytab lookup succeeds with ktKey, yet the key used for decryption
(and returned) is the password-derived pwKey: the claim that a held
keytab determines the decryption key is false. -/
theorem c3_counterexample :
    credsBoth.hasKeytab = true ∧
    coC3.keytabKey repA.cname.nameString repA.crealm repA.encPart.kvno repA.encPart.etype =
      Except.ok ktKey ∧
    ASRep.decryptEncPart coC3 credsBoth repA = Except.ok (pwKey, dencA 0) ∧
    ktKey ≠ pwKey := by
  refine ⟨rfl, rfl, rfl, by decide⟩

/-- C3 as amended: the keytab and password branches are independent ifs.
A held keytab is looked up and a miss fails; a held password then
derives the key, overriding the keytab key when both are held; the
keytab key is used only when no password is held; holding neither fails
with the no-secret error; and ASRep.DecryptEncPart pipes the selected
key into decryption. -/
theorem c3_key_selection :
    (∀ (co : Collab) (c : Credentials) (k : ASRep) (e : String),
      c.hasKeytab = true →
      co.keytabKey k.cname.nameString k.crealm k.encPart.kvno k.encPart.etype =
        Except.error e →
      ASRep.acquireKey co c k = Except.error ("Could not get key from keytab: " ++ e)) ∧
    (∀ (co : Collab) (c : Credentials) (k : ASRep) (kp : EncryptionKey) (salt : List Nat),
      c.hasPassword = true →
      co.passwordKey c.password k.cname k.crealm k.encPart.etype k.paData =
        Except.ok (kp, salt) →
      (c.hasKeytab = true →
        ∃ kk, co.keytabKey k.cname.nameString k.crealm k.encPart.kvno k.encPart.etype =
          Except.ok kk) →
      ASRep.acquireKey co c k = Except.ok kp) ∧
    (∀ (co : Collab) (c : Credentials) (k : ASRep) (kk : EncryptionKey),
      c.hasKeytab = true → c.hasPassword = false →
      co.keytabKey k.cname.nameString k.crealm k.encPart.kvno k.encPart.etype =
        Except.ok kk →
      ASRep.acquireKey co c k = Except.ok kk) ∧
    (∀ (co : Collab) (c : Credentials) (k : ASRep),
      c.hasKeytab = false → c.hasPassword = false →
      ASRep.acquireKey co c k =
        Except.error "No secret available in credentials to preform decryption") ∧
    (∀ (co : Collab) (c : Credentials) (k : ASRep) (key : EncryptionKey),
      ASRep.acquireKey co c k = Except.ok key →
      ASRep.decryptEncPart co c k = ASRep.decryptWithKey co k key) := by
  refine ⟨?_, ?_, ?_, ?_, ?_⟩
  · intro co c k e hkt hmiss
    unfold ASRep.acquireKey
    simp [hkt, hmiss]
  · intro co c k kp salt hpw hpk hkt
    unfold ASRep.acquireKey
    by_cases hk : c.hasKeytab
    · obtain ⟨kk, hkk⟩ := hkt hk
      simp [hk, hkk, hpw, hpk]
    · simp [hk, hpw, hpk]
  · intro co c k kk hkt hpw hkk
    unfold ASRep.acquireKey
    simp [hkt, hpw, hkk]
  · intro co c k hkt hpw
    unfold ASRep.acquireKey
    simp [hkt, hpw]
  · intro co c k key hkey
    unfold ASRep.decryptEncPart
    rw [hkey]

/-- C3 witness: with both secrets held and both derivations succeeding,
the selected key is the password-derived one. -/
theorem c3_key_selection_witness :
    ASRep.acquireKey coC3 credsBoth repA = Except.ok pwKey :=
  c3_key_selection.2.1 coC3 credsBoth repA pwKey [] rfl rfl (fun _ => ⟨ktKey, rfl⟩)

/-- C4: for every nonce value, once the checks preceding the nonce
comparison pass (client name and realm match, decryption succeeds), a
decrypted nonce differing from the request nonce makes ASRep.IsValid and
TGSRep.IsValid return false with the replay failure, while an equal
nonce passes the nonce check: the run continues with the remaining
checks, none of which can produce the replay failure. -/
theorem c4_nonce_replay :
    (∀ (co : Collab) (cfg : Config) (creds : Credentials) (req : ASReq) (k : ASRep)
        (now : Int) (key : EncryptionKey) (denc : EncKDCRepPart) (l : List String),
      k.cname.nameType = req.reqBody.cname.nameType →
      k.cname.nameString = some l →
      req.reqBody.cname.nameString = some l →
      k.crealm = req.reqBody.realm →
      ASRep.decryptEncPart co creds k = Except.ok (key, denc) →
      (denc.nonce ≠ req.reqBody.nonce →
        ASRep.isValid co cfg creds req k now = ValidRes.res false (some replayNote)) ∧
      (denc.nonce = req.reqBody.nonce →
        ASRep.isValid co cfg creds req k now = asValidAfterNonce co cfg req k key denc now ∧
        asValidAfterNonce co cfg req k key denc now ≠ ValidRes.res false (some replayNote))) ∧
    (∀ (co : Collab) (cfg : Config) (req : TGSReq) (k : TGSRep) (now : Int) (l : List String),
      k.cname.nameType = req.reqBody.cname.nameType →
      k.cname.nameString = some l →
      req.reqBody.cname.nameString = some l →
      k.crealm = req.reqBody.realm →
      (k.decryptedEncPart.nonce ≠ req.reqBody.nonce →
        TGSRep.isValid co cfg req k now = ValidRes.res false (some replayNote)) ∧
      (k.decryptedEncPart.nonce = req.reqBody.nonce →
        TGSRep.isValid co cfg req k now = tgsValidAfterNonce co cfg req k now ∧
        tgsValidAfterNonce co cfg req k now ≠ ValidRes.res false (some replayNote))) := by
  constructor
  · intro co cfg creds req k now key denc l h1 h2 h3 h4 h5
    constructor
    · intro hne
      unfold ASRep.isValid
      rw [h2, h3, h5]
      simp [h1, h4, nameLoop_self, hne]
    · intro heq
      refine ⟨?_, asAfterNonce_ne_replay co cfg req k key denc now⟩
      unfold ASRep.isValid
      rw [h2, h3, h5]
      simp [h1, h4, nameLoop_self, heq]
  · intro co cfg req k now l h1 h2 h3 h4
    constructor
    · intro hne
      unfold TGSRep.isValid
      rw [h2, h3]
      simp [h1, h4, nameLoop_self, hne]
    · intro heq
      refine ⟨?_, tgsAfterNonce_ne_replay co cfg req k now⟩
      unfold TGSRep.isValid
      rw [h2, h3]
      simp [h1, h4, nameLoop_self, heq]

/-- C4 witness: at the fixture with request nonce 8 and decrypted nonce
7, ASRep.IsValid returns the replay failure. -/
theorem c4_nonce_replay_witness :
    ASRep.isValid (coA 0) (cfgS 300) credsPw reqA8 repA 0 =
      ValidRes.res false (some replayNote) :=
  (c4_nonce_replay.1 (coA 0) (cfgS 300) credsPw reqA8 repA 0
    { keyType := 1, keyValue := [1] } (dencA 0) ["u"] rfl rfl rfl rfl rfl).1 (by decide)

/-- C5 counterexample: a well-formed KRB-ERROR with code 6 over UDP.
The trace shows a TCP exchange was performed even though the code is not
52, because sendUDP surfaces the parsed KRB-ERROR through its error
return and SendToKDC treats that as a transport failure: the claim that
only code 52 causes a switch to TCP is false. -/
theorem c5_counterexample :
    sendToKDC coNet (cfgS 300) env6 [1] =
      KDCOutcome.done krb6Bytes (some (KDCError.krb { errorCode := 6 }))
        [Transport.udpT, Transport.tcpT] ∧
    (6 : Int) ≠ 52 := by
  refine ⟨rfl, by decide⟩

/-- C5 as amended: in the UDP-preference branch, a well-formed KRB-ERROR
over UDP always triggers a TCP fallback, whatever its code, because it
arrives through the error return of sendUDP; when the fallback TCP
exchange succeeds, the KRB-ERROR is surfaced unchanged (its bytes and a
typed error carrying the code); only code 52 triggers a second TCP
exchange. -/
theorem c5_krberror_surfacing :
    (∀ c : Int, c ≠ 52 →
      sendToKDC (coE c) (cfgS 300) env6 [1] =
        KDCOutcome.done krb6Bytes (some (KDCError.krb { errorCode := c }))
          [Transport.udpT, Transport.tcpT]) ∧
    sendToKDC (coE 52) (cfgS 300) env6 [1] =
      KDCOutcome.done krb6Bytes (some (KDCError.krb { errorCode := 52 }))
        [Transport.udpT, Transport.tcpT, Transport.tcpT] := by
  constructor
  · intro c hc
    have h2 : sendToKDC (coE c) (cfgS 300) env6 [1] =
        if c = 52 then
          KDCOutcome.done krb6Bytes (some (KDCError.krb { errorCode := c }))
            [Transport.udpT, Transport.tcpT, Transport.tcpT]
        else
          KDCOutcome.done krb6Bytes (some (KDCError.krb { errorCode := c }))
            [Transport.udpT, Transport.tcpT] := rfl
    rw [h2, if_neg hc]
  · rfl

/-- C5 witness: the amended statement applied at code 6. -/
theorem c5_krberror_surfacing_witness :
    sendToKDC (coE 6) (cfgS 300) env6 [1] =
      KDCOutcome.done krb6Bytes (some (KDCError.krb { errorCode := 6 }))
        [Transport.udpT, Transport.tcpT] :=
  c5_krberror_surfacing.1 6 (by decide)

/-- C6: the clock-skew check is symmetric with an inclusive bound: an
AS-REP auth time exactly clockskew away from now (in either direction)
is accepted and clockskew plus one second away is rejected; a TGS-REP
start time clockskew away is accepted, a start time clockskew plus one
second away is accepted when the auth time fallback is within skew, and
rejected when the auth time is also out of skew, in either direction. -/
theorem c6_clockskew (t s : Int) (hs : 0 ≤ s) :
    ASRep.isValid (coA (t + s)) (cfgS s) credsPw reqA repA t = ValidRes.res true none ∧
    ASRep.isValid (coA (t - s)) (cfgS s) credsPw reqA repA t = ValidRes.res true none ∧
    ASRep.isValid (coA (t + s + 1)) (cfgS s) credsPw reqA repA t =
      ValidRes.res false (some skewNote) ∧
    ASRep.isValid (coA (t - s - 1)) (cfgS s) credsPw reqA repA t =
      ValidRes.res false (some skewNote) ∧
    TGSRep.isValid (coA 0) (cfgS s) reqT (repT (t + s) (t + s)) t = ValidRes.res true none ∧
    TGSRep.isValid (coA 0) (cfgS s) reqT (repT (t - s) (t - s)) t = ValidRes.res true none ∧
    TGSRep.isValid (coA 0) (cfgS s) reqT (repT (t + s + 1) t) t = ValidRes.res true none ∧
    TGSRep.isValid (coA 0) (cfgS s) reqT (repT (t - s - 1) t) t = ValidRes.res true none ∧
    TGSRep.isValid (coA 0) (cfgS s) reqT (repT (t + s + 1) (t + s + 1)) t =
      ValidRes.res false (some skewNote) ∧
    TGSRep.isValid (coA 0) (cfgS s) reqT (repT (t - s - 1) (t - s - 1)) t =
      ValidRes.res false (some skewNote) := by
  refine ⟨?_, ?_, ?_, ?_, ?_, ?_, ?_, ?_, ?_, ?_⟩
  · rw [asValid_fixture, if_neg (by omega)]
  · rw [asValid_fixture, if_neg (by omega)]
  · rw [asValid_fixture, if_pos (by omega)]
  · rw [asValid_fixture, if_pos (by omega)]
  · rw [tgsValid_fixture, if_neg (by omega)]
  · rw [tgsValid_fixture, if_neg (by omega)]
  · rw [tgsValid_fixture, if_pos (by omega), if_neg (by omega)]
  · rw [tgsValid_fixture, if_pos (by omega), if_neg (by omega)]
  · rw [tgsValid_fixture, if_pos (by omega), if_pos (by omega)]
  · rw [tgsValid_fixture, if_pos (by omega), if_pos (by omega)]

/-- C6 witness: the theorem applied at now 0 and clockskew 300. -/
theorem c6_clockskew_witness :
    ASRep.isValid (coA (0 + 300)) (cfgS 300) credsPw reqA repA 0 = ValidRes.res true none ∧
    ASRep.isValid (coA (0 - 300)) (cfgS 300) credsPw reqA repA 0 = ValidRes.res true none ∧
    ASRep.isValid (coA (0 + 300 + 1)) (cfgS 300) credsPw reqA repA 0 =
      ValidRes.res false (some skewNote) ∧
    ASRep.isValid (coA (0 - 300 - 1)) (cfgS 300) credsPw reqA repA 0 =
      ValidRes.res false (some skewNote) ∧
    TGSRep.isValid (coA 0) (cfgS 300) reqT (repT (0 + 300) (0 + 300)) 0 =
      ValidRes.res true none ∧
    TGSRep.isValid (coA 0) (cfgS 300) reqT (repT (0 - 300) (0 - 300)) 0 =
      ValidRes.res true none ∧
    TGSRep.isValid (coA 0) (cfgS 300) reqT (repT (0 + 300 + 1) 0) 0 =
      ValidRes.res true none ∧
    TGSRep.isValid (coA 0) (cfgS 300) reqT (repT (0 - 300 - 1) 0) 0 =
      ValidRes.res true none ∧
    TGSRep.isValid (coA 0) (cfgS 300) reqT (repT (0 + 300 + 1) (0 + 300 + 1)) 0 =
      ValidRes.res false (some skewNote) ∧
    TGSRep.isValid (coA 0) (cfgS 300) reqT (repT (0 - 300 - 1) (0 - 300 - 1)) 0 =
      ValidRes.res false (some skewNote) :=
  c6_clockskew 0 300 (by decide)

/-- C7: on any plaintext, EncKDCRepPart.Unmarshal attempts application
tag 25 first; exactly when that attempt fails it makes a second attempt
under tag 26 and returns its outcome (so a failure of both attempts is
the error of the second); when tag 25 succeeds, no tag 26 attempt is
made.  The same function serves AS-REP and TGS-REP decryption. -/
theorem c7_unmarshal_fallback (co : Collab) (b : List Nat) :
    (∃ e, co.unmarshalWithTag 25 b = Except.ok e ∧
      EncKDCRepPart.unmarshal co b = Except.ok e ∧
      EncKDCRepPart.unmarshalTags co b = [25]) ∨
    ((∃ m, co.unmarshalWithTag 25 b = Except.error m) ∧
      EncKDCRepPart.unmarshal co b = co.unmarshalWithTag 26 b ∧
      EncKDCRepPart.unmarshalTags co b = [25, 26]) := by
  cases h : co.unmarshalWithTag 25 b with
  | ok e =>
    left
    exact ⟨e, rfl, by simp [EncKDCRepPart.unmarshal, h], by
      simp [EncKDCRepPart.unmarshalTags, h]⟩
  | error m =>
    right
    exact ⟨⟨m, rfl⟩, by simp [EncKDCRepPart.unmarshal, h], by
      simp [EncKDCRepPart.unmarshalTags, h]⟩

/-- C8 counterexample: two runs of ASRep.IsValid on identical reply,
request, configuration, credentials and collaborators give different
verdicts, because the verdict also depends on the clock reading taken
inside IsValid: the claim that the verdict depends on nothing outside
the listed inputs is false. -/
theorem c8_counterexample :
    env8a.co = env8b.co ∧ env8a.cfg = env8b.cfg ∧ env8a.creds = env8b.creds ∧
    env8a.req = env8b.req ∧ env8a.rep = env8b.rep ∧
    validateEnv env8a ≠ validateEnv env8b := by
  refine ⟨rfl, rfl, rfl, rfl, rfl, by decide⟩

/-- C8 as amended: the verdict of ASRep.IsValid is a function of the
reply, the request, the configuration, the credentials, the collaborator
oracles and the clock reading; two runs agreeing on those inputs yield
the same verdict regardless of any other ambient state. -/
theorem c8_determinism (e1 e2 : ValidEnv) (hco : e1.co = e2.co) (hcfg : e1.cfg = e2.cfg)
    (hcreds : e1.creds = e2.creds) (hreq : e1.req = e2.req) (hrep : e1.rep = e2.rep)
    (hnow : e1.now = e2.now) : validateEnv e1 = validateEnv e2 := by
  unfold validateEnv
  rw [hco, hcfg, hcreds, hreq, hrep, hnow]

/-- C8 witness: two environments differing only in the ambient value
give the same verdict. -/
theorem c8_determinism_witness : validateEnv env8a = validateEnv env8c :=
  c8_determinism env8a env8c rfl rfl rfl rfl rfl rfl

/-- C9 counterexample: a TCP read that succeeds with only 2 bytes makes
sendTCP panic on the out-of-range slice r drop 4 (the Go r[4:] with a
length-2 slice), rather than yielding an error return as claimed. -/
theorem c9_counterexample :
    net9.readErr = none ∧ net9.readBytes.length < 4 ∧
    sendTCP baseCollab net9 = TCPResult.panicT := by
  refine ⟨rfl, by decide, rfl⟩

/-- C9 as amended: sendTCP returns an error without slicing when the
read itself errors; a successful read of fewer than 4 bytes panics on
the out-of-range slice; a successful read of at least 4 bytes strips the
4-octet prefix and passes the payload to checkForKRBError. -/
theorem c9_tcp_strip (co : Collab) (net : TCPNet)
    (h1 : net.resolveErr = none) (h2 : net.dialErr = none) (h3 : net.writeErr = none) :
    (∀ m, net.readErr = some m →
      sendTCP co net = TCPResult.res [] (some (KDCError.msg "Sending over TCP failed"))) ∧
    (net.readErr = none → net.readBytes.length < 4 →
      sendTCP co net = TCPResult.panicT) ∧
    (net.readErr = none → 4 ≤ net.readBytes.length →
      sendTCP co net =
        TCPResult.res (checkForKRBError co (net.readBytes.drop 4)).1
          (checkForKRBError co (net.readBytes.drop 4)).2) := by
  refine ⟨?_, ?_, ?_⟩
  · intro m hm
    simp [sendTCP, h1, h2, h3, hm]
  · intro hm hl
    simp only [sendTCP, h1, h2, h3, hm]
    rw [if_neg (by omega)]
  · intro hm hl
    simp only [sendTCP, h1, h2, h3, hm]
    rw [if_pos hl]

/-- C9 witness: the amended statement applied at the 2-byte read. -/
theorem c9_tcp_strip_witness : sendTCP baseCollab net9 = TCPResult.panicT :=
  (c9_tcp_strip baseCollab net9 rfl rfl rfl).2.1 rfl (by decide)

/-- C10 counterexample: a reply client name that is a strict prefix of
the requested one passes validation entirely: the element-wise loop only
visits the reply indices, so the missing second component is never
compared and IsValid returns true, refuting the claim that a strictly
shorter reply name fails validation. -/
theorem c10_counterexample :
    rep10.cname.nameString = some ["a"] ∧
    req10.reqBody.cname.nameString = some ["a", "b"] ∧
    ASRep.isValid (coA 0) (cfgS 300) credsPw req10 rep10 0 = ValidRes.res true none := by
  refine ⟨rfl, rfl, by decide⟩

/-- C10 as amended: the CName loop compares only the first
length-of-reply components.  A reply name extending the request name by
a non-empty suffix makes the loop index the request sequence out of
range once the shared segment matches, which is a runtime panic
propagated by IsValid, not a failure return; a reply name that is an
initial segment of the request name passes the loop; the reply sequence
itself is never indexed out of bounds. -/
theorem c10_cname_loop :
    (∀ xs t : List String, nameLoop xs (xs ++ t) = some true) ∧
    (∀ ys t : List String, t ≠ [] → nameLoop (ys ++ t) ys = none) ∧
    (∀ (co : Collab) (cfg : Config) (creds : Credentials) (req : ASReq) (k : ASRep)
        (now : Int),
      k.cname.nameType = req.reqBody.cname.nameType →
      (∃ l, k.cname.nameString = some l) →
      nameLoop (k.cname.nameString.getD []) (req.reqBody.cname.nameString.getD []) = none →
      ASRep.isValid co cfg creds req k now = ValidRes.panicV) := by
  refine ⟨nameLoop_initSeg, nameLoop_panic, ?_⟩
  rintro co cfg creds req k now h1 ⟨l, h2⟩ h3
  unfold ASRep.isValid
  rw [if_neg (by simp [h1, h2])]
  rw [h3]

/-- C10 witness: the loop facts at concrete lists, and IsValid panicking
on a reply client name strictly longer than the requested one. -/
theorem c10_cname_loop_witness :
    nameLoop ["a"] (["a"] ++ ["b"]) = some true ∧
    nameLoop (["a"] ++ ["b"]) ["a"] = none ∧
    ASRep.isValid (coA 0) (cfgS 300) credsPw reqA repLong 0 = ValidRes.panicV :=
  ⟨c10_cname_loop.1 ["a"] ["b"],
    c10_cname_loop.2.1 ["a"] ["b"] (by decide),
    c10_cname_loop.2.2 (coA 0) (cfgS 300) credsPw reqA repLong 0 rfl ⟨["u", "v"], rfl⟩
      (by decide)⟩

end Krb
